import Mathlib

/-!
# Verification of the ImagCDF mapping layer (imcdf.c / imcdf_utils.c / imcdf_low_level.c)

A shallow embedding of the INTERMAGNET CDF (ImagCDF) schema layer:
attribute reading/validation, variable naming and classification,
dependency resolution, filename synthesis and the TT2000 time model.

C strings are embedded as Lean `String`; C `long long` as `Int`
(the code never exercises 64-bit wraparound on the claimed inputs);
C `double` metadata values as `Rat` (they are stored and compared, never
computed with, in the mapping layer).  The external CDF container engine
is modelled as an explicit attribute/array store.
-/

namespace Imcdf

/-! ## C character and string primitives -/

/-- C `toupper` in the default locale as the code uses it (ASCII):
maps `a`-`z` (97-122) to `A`-`Z`, leaves everything else unchanged. -/
def ctoupper (c : Char) : Char :=
  if 97 ≤ c.toNat ∧ c.toNat ≤ 122 then Char.ofNat (c.toNat - 32) else c

/-- C `tolower` in the default locale (ASCII): maps `A`-`Z` (65-90) to `a`-`z`. -/
def ctolower (c : Char) : Char :=
  if 65 ≤ c.toNat ∧ c.toNat ≤ 90 then Char.ofNat (c.toNat + 32) else c

/-- The first character of a C string: `*s`.  For the empty string this is the
NUL terminator, exactly as reading `*s` on `""` yields `'\0'` in C. -/
def headChar (s : String) : Char :=
  match s.data with
  | [] => Char.ofNat 0
  | c :: _ => c

/-- Lowercase every character of a string (a `tolower` loop over the whole string). -/
def lowerString (s : String) : String :=
  ⟨s.data.map ctolower⟩

/-- Lowercase every character from position `n` (inclusive) to the end, leaving
characters before `n` untouched.  This models the loop
`for (ptr = filename + strlen (prefix); *ptr; ptr++) *ptr = tolower (*ptr);`. -/
def strLowerFrom (n : Nat) (s : String) : String :=
  ⟨s.data.take n ++ (s.data.drop n).map ctolower⟩

/-- C `strcasecmp (a, b) == 0`: the two strings are equal after mapping every
character through `tolower`. -/
def strcaseEq (a b : String) : Bool :=
  a.data.map ctolower == b.data.map ctolower

/-! ## Enumerations (imcdf.h) -/

/-- `enum IMCDFPubLevel {IMCDF_PUBLEVEL_1=1, ..., IMCDF_PUBLEVEL_4=4}` -/
inductive IMCDFPubLevel where
  | l1 | l2 | l3 | l4
deriving DecidableEq, Repr

/-- `enum IMCDFStandardLevel {IMCDF_STANDLEVEL_FULL, IMCDF_STANDLEVEL_PARTIAL, IMCDF_STANDLEVEL_NONE}` -/
inductive IMCDFStandardLevel where
  | levelFull | levelPartial | levelNone
deriving DecidableEq, Repr

/-- `enum IMCDFVariableType {IMCDF_VARTYPE_GEOMAGNETIC_FIELD_ELEMENT, IMCDF_VARTYPE_TEMPERATURE, IMCDF_VARTYPE_ERROR}` -/
inductive IMCDFVariableType where
  | geomagneticFieldElement | temperature | error
deriving DecidableEq, Repr

/-- Modelled from the spec: the `enum IMCDFInterval` declaration lives in the
current `imcdf.h`, which is not among the provided sources (only the 1.1-era
header is).  The spec's cadence/coverage enumeration is
{annual, monthly, daily, hourly, minute, second, default→"unkn"}; the switch
statements in `imcdf_make_filename` have a `default` case, so a value outside
the six named ones exists and is modelled as `unknown`. -/
inductive IMCDFInterval where
  | annual | monthly | daily | hourly | minute | second | unknown
deriving DecidableEq, Repr

/-! ## Fixed names and constants (imcdf.h) -/

/-- `#define VECTOR_TIME_STAMPS_VAR_NAME "GeomagneticVectorTimes"` -/
def VECTOR_TIME_STAMPS_VAR_NAME : String := "GeomagneticVectorTimes"

/-- `#define SCALAR_TIME_STAMPS_VAR_NAME "GeomagneticScalarTimes"` -/
def SCALAR_TIME_STAMPS_VAR_NAME : String := "GeomagneticScalarTimes"

/-- `sprintf (depend_0, TEMPERATURE_TIME_STAMPS_VAR_NAME_BASE, elem_rec)` with
the pattern `"Temperature%sTimes"`. -/
def temperatureTimeStampsName (elem_rec : String) : String :=
  "Temperature" ++ elem_rec ++ "Times"

/-! ## Enumeration/lookup utilities (imcdf_utils.c) -/

/-- `imcdf_parse_pub_level_string`: case-insensitive match of `"1"`..`"4"`;
any other string falls through to `IMCDF_PUBLEVEL_1`. -/
def imcdf_parse_pub_level_string (s : String) : IMCDFPubLevel :=
  if strcaseEq s "1" then .l1
  else if strcaseEq s "2" then .l2
  else if strcaseEq s "3" then .l3
  else if strcaseEq s "4" then .l4
  else .l1

/-- `imcdf_pub_level_code_tostring` -/
def imcdf_pub_level_code_tostring : IMCDFPubLevel → String
  | .l1 => "1"
  | .l2 => "2"
  | .l3 => "3"
  | .l4 => "4"

/-- `imcdf_parse_standard_level_string`: case-insensitive match of
`"full"`/`"partial"`/`"none"`; any other string falls through to
`IMCDF_STANDLEVEL_NONE`. -/
def imcdf_parse_standard_level_string (s : String) : IMCDFStandardLevel :=
  if strcaseEq s "full" then .levelFull
  else if strcaseEq s "partial" then .levelPartial
  else if strcaseEq s "none" then .levelNone
  else .levelNone

/-- `imcdf_standard_level_code_tostring` -/
def imcdf_standard_level_code_tostring : IMCDFStandardLevel → String
  | .levelFull => "Full"
  | .levelPartial => "Partial"
  | .levelNone => "None"

/-! ## Element classification (imcdf.c) -/

/-- `imcdf_is_vector_gm_data`: false unless the type is
`IMCDF_VARTYPE_GEOMAGNETIC_FIELD_ELEMENT`; otherwise a switch on
`toupper (*elem_rec)` over the cases X Y Z H D E V I F. -/
def imcdf_is_vector_gm_data (var_type : IMCDFVariableType) (elem_rec : String) : Bool :=
  if var_type ≠ .geomagneticFieldElement then false
  else
    let c := ctoupper (headChar elem_rec)
    c == 'X' || c == 'Y' || c == 'Z' || c == 'H' || c == 'D' ||
    c == 'E' || c == 'V' || c == 'I' || c == 'F'

/-- `imcdf_is_scalar_gm_data`: false unless the type is
`IMCDF_VARTYPE_GEOMAGNETIC_FIELD_ELEMENT`; otherwise a switch on
`toupper (*elem_rec)` over the cases S G. -/
def imcdf_is_scalar_gm_data (var_type : IMCDFVariableType) (elem_rec : String) : Bool :=
  if var_type ≠ .geomagneticFieldElement then false
  else
    let c := ctoupper (headChar elem_rec)
    c == 'S' || c == 'G'

/-- `create_var_name` (imcdf.c, private): `sprintf` of the type prefix and the
element code into a `static char var_name [30]` buffer, with NO length check —
the Lean model returns the full concatenation; `none` models the `return 0`
taken for an unrecognised variable type. -/
def create_var_name (var_type : IMCDFVariableType) (elem_rec : String) : Option String :=
  match var_type with
  | .geomagneticFieldElement => some ("GeomagneticField" ++ elem_rec)
  | .temperature => some ("Temperature" ++ elem_rec)
  | .error => none

/-- The size of the `static char var_name [30]` buffer in `create_var_name`
(and of the local `char var_name [30]` in `imcdf_write_variable`). -/
def VAR_NAME_BUF_LEN : Nat := 30

/-! ## Time model (imcdf_low_level.c plus the external CDF calendar conversion)

`imcdf_date_time_to_tt2000` / `imcdf_tt2000_to_date_time` wrap the external
CDF library calls `CDF_TT2000_from_UTC_parts` / `CDF_TT2000_to_UTC_parts`
(the container collaborator, out of scope of the sources).  Per the spec the
epoch is "a signed 64-bit count of nanoseconds relative to a fixed reference
epoch" and the conversion "fails only if the underlying conversion reports an
illegal value (e.g., malformed calendar date)".  The collaborator is modelled
as exact proleptic-Gregorian calendar arithmetic (nanoseconds relative to
2000-01-01T00:00:00, no leap-second table; the fixed offset and leap seconds
of real TT2000 cancel in every round-trip property used here). -/

/-- Is `y` a Gregorian leap year. -/
def isLeapYear (y : Int) : Bool :=
  (y % 4 == 0 && y % 100 != 0) || (y % 400 == 0)

/-- Days in a Gregorian month. -/
def daysInMonth (y m : Int) : Int :=
  if m = 2 then (if isLeapYear y then 29 else 28)
  else if m = 4 ∨ m = 6 ∨ m = 9 ∨ m = 11 then 30
  else 31

/-- Civil date → days since 1970-01-01 (proleptic Gregorian). -/
def daysFromCivil (y m d : Int) : Int :=
  let y' := if m ≤ 2 then y - 1 else y
  let era := Int.ediv y' 400
  let yoe := y' - era * 400
  let mp := Int.emod (m + 9) 12
  let doy := Int.ediv (153 * mp + 2) 5 + d - 1
  let doe := yoe * 365 + Int.ediv yoe 4 - Int.ediv yoe 100 + doy
  era * 146097 + doe - 719468

/-- Days since 1970-01-01 → civil date (proleptic Gregorian). -/
def civilFromDays (z0 : Int) : Int × Int × Int :=
  let z := z0 + 719468
  let era := Int.ediv z 146097
  let doe := z - era * 146097
  let yoe := Int.ediv (doe - Int.ediv doe 1460 + Int.ediv doe 36524 - Int.ediv doe 146096) 365
  let y := yoe + era * 400
  let doy := doe - (365 * yoe + Int.ediv yoe 4 - Int.ediv yoe 100)
  let mp := Int.ediv (5 * doy + 2) 153
  let d := doy - Int.ediv (153 * mp + 2) 5 + 1
  let m := mp + (if mp < 10 then 3 else -9)
  (if m ≤ 2 then y + 1 else y, m, d)

/-- A calendar date/time the collaborator accepts: months/days in range,
time-of-day fields in range. -/
def isValidDateTime (y mo d h mi s : Int) : Bool :=
  1 ≤ mo && mo ≤ 12 && 1 ≤ d && d ≤ daysInMonth y mo &&
  0 ≤ h && h < 24 && 0 ≤ mi && mi < 60 && 0 ≤ s && s < 60

/-- `imcdf_date_time_to_tt2000`: `none` models the `-1` return taken when the
collaborator reports `ILLEGAL_TT2000_VALUE` for a malformed date. -/
def imcdf_date_time_to_tt2000 (y mo d h mi s : Int) : Option Int :=
  if isValidDateTime y mo d h mi s then
    some (((daysFromCivil y mo d - daysFromCivil 2000 1 1) * 86400
            + h * 3600 + mi * 60 + s) * 1000000000)
  else none

/-- `imcdf_tt2000_to_date_time` (always reports success in the C code). -/
def imcdf_tt2000_to_date_time (t : Int) : Int × Int × Int × Int × Int × Int :=
  let totalSec := Int.ediv t 1000000000
  let days := Int.ediv totalSec 86400
  let sod := Int.emod totalSec 86400
  let c := civilFromDays (days + daysFromCivil 2000 1 1)
  (c.1, c.2.1, c.2.2, Int.ediv sod 3600, Int.emod (Int.ediv sod 60) 60, Int.emod sod 60)

/-- `imcdf_tt2000_inc`: `tt2000 + ((long long) inc * 1000000000ll)`. -/
def imcdf_tt2000_inc (tt2000 : Int) (inc : Int) : Int :=
  tt2000 + inc * 1000000000

/-- The fill loop of `imcdf_make_tt2000_array`: store the running value, then
increment it by `inc` seconds. -/
def tt2000ArrayLoop (inc : Int) (t : Int) : Nat → List Int
  | 0 => []
  | n + 1 => t :: tt2000ArrayLoop inc (imcdf_tt2000_inc t inc) n

/-- `imcdf_make_tt2000_array`: convert the start date (failure propagates as
null/`none`), then fill `n_samples` entries spaced `inc` seconds apart.
(The malloc-failure path is not modelled.) -/
def imcdf_make_tt2000_array (y mo d h mi s inc : Int) (n_samples : Nat) : Option (List Int) :=
  (imcdf_date_time_to_tt2000 y mo d h mi s).map fun t0 => tt2000ArrayLoop inc t0 n_samples

/-- `imcdf_calc_samp_per_from_tt2000`:
`diff = (long) (a[1] - a[0]); return (int) (diff / 1000000000l);`.
C integer division truncates toward zero (`Int.div`); the `(long)`/`(int)`
casts are identity on every value reachable from the `int increment`
parameter and are not modelled.  The C code requires length ≥ 2; shorter
lists (out-of-bounds reads in C) are totalised with 0. -/
def imcdf_calc_samp_per_from_tt2000 (arr : List Int) : Int :=
  Int.tdiv ((arr[1]?.getD 0) - (arr[0]?.getD 0)) 1000000000

/-! ## `strtod` and the format-version check

`imcdf_read_global_attrs` computes
`imcdf_version = (int) ((strtod (format_version, &ptr) * 10.0) + 0.5)`.
The C `strtod` is modelled as an exact decimal parse into `Rat`
(optional leading whitespace, optional sign, digits, optional fraction,
optional decimal exponent; hex floats and inf/nan are not modelled).  The
model is exact where the C routine rounds to the nearest double; on every
version string with at most a few fractional digits the truncated tenths
value is identical. -/

/-- Greedily consume decimal digits: returns (value so far, digits consumed, rest). -/
def parseDigitsAux : List Char → Nat → Nat → Nat × Nat × List Char
  | [], acc, cnt => (acc, cnt, [])
  | c :: cs, acc, cnt =>
    if 48 ≤ c.toNat ∧ c.toNat ≤ 57 then
      parseDigitsAux cs (acc * 10 + (c.toNat - 48)) (cnt + 1)
    else (acc, cnt, c :: cs)

/-- Model of C `strtod` (see section comment): the exact value of the longest
valid leading numeric prefix as an unreduced fraction
(numerator, positive denominator); `(0, 1)` when no digits are consumed. -/
def strtodFrac (s : String) : Int × Nat :=
  let cs := s.data.dropWhile fun c =>
    c == ' ' || c == '\t' || c == '\n' || c == '\r' || c == '\x0b' || c == '\x0c'
  let signed : Bool × List Char :=
    match cs with
    | '-' :: rest => (true, rest)
    | '+' :: rest => (false, rest)
    | _ => (false, cs)
  let (ip, icnt, cs1) := parseDigitsAux signed.2 0 0
  let frac : Nat × Nat × List Char :=
    match cs1 with
    | '.' :: rest => parseDigitsAux rest 0 0
    | _ => (0, 0, cs1)
  let (fp, fcnt, cs2) := frac
  if icnt + fcnt = 0 then (0, 1)
  else
    let numAbs : Nat := ip * 10 ^ fcnt + fp
    let expo : Int :=
      match cs2 with
      | e :: rest =>
        if e == 'e' || e == 'E' then
          let esigned : Bool × List Char :=
            match rest with
            | '-' :: r => (true, r)
            | '+' :: r => (false, r)
            | _ => (false, rest)
          let (ev, ecnt, _) := parseDigitsAux esigned.2 0 0
          if ecnt = 0 then 0 else if esigned.1 then -(ev : Int) else (ev : Int)
        else 0
      | [] => 0
    let num : Int := if signed.1 then -(numAbs : Int) else (numAbs : Int)
    if 0 ≤ expo then (num * 10 ^ expo.toNat, 10 ^ fcnt)
    else (num, 10 ^ fcnt * 10 ^ (-expo).toNat)

/-- `(int) ((strtod (s, &ptr) * 10.0) + 0.5)`: the integer tenths value of a
format-version string.  For the parsed value n/d this is the C truncation
toward zero of `n/d * 10 + 1/2 = (20n + d) / (2d)`, i.e. `Int.tdiv`. -/
def versionTenths (s : String) : Int :=
  let nd := strtodFrac s
  Int.tdiv (20 * nd.1 + (nd.2 : Int)) (2 * (nd.2 : Int))

/-! ## `sprintf` zero-padded integer fields -/

/-- `%0wd` for a nonnegative value. -/
def zpadNat (w : Nat) (n : Nat) : String :=
  let s := toString n
  ⟨List.replicate (w - s.length) '0' ++ s.data⟩

/-- `%0wd`: zero-padded to total width `w`, sign included in the width. -/
def zpadInt (w : Nat) (n : Int) : String :=
  if n < 0 then "-" ++ zpadNat (w - 1) n.natAbs else zpadNat w n.natAbs

/-! ## CDF status codes

`CDF_OK` is the library's success status; statuses below `CDF_WARN` are
errors.  The exact numeric values of the library's error codes are opaque to
the mapping layer; representative values below `CDF_WARN` are used. -/

def CDF_OK : Int := 0

def CDF_WARN : Int := -2000

/-- Representative value of the library's `VAR_EXISTS` error status. -/
def VAR_EXISTS_STATUS : Int := -2221

/-- Representative value of the library's attribute/entry not-found status. -/
def NOT_FOUND_STATUS : Int := -2100

/-- The message composed by `format_error_message (msg, param, cdf_status)`:
an operation label, an optional parameter name, and the collaborator status
(`CDF_OK` when the failure is the mapping layer's own). -/
structure ImcdfError where
  msg : String
  param : Option String
  cdfStatus : Int
deriving DecidableEq, Repr

/-! ## The container collaborator, read side

Global attributes are addressed by name and entry index and are typed
text / double / epoch.  `entryFuel` bounds the index-probe discovery loops
(the C loops scan entries 0, 1, 2, … until a not-found status; a real
container holds finitely many entries). -/

structure Container where
  strAttr : String → Nat → Option String
  dblAttr : String → Nat → Option Rat
  ttAttr : String → Nat → Option Int
  entryFuel : Nat

/-- `struct IMCDFGlobalAttr` (read result).  Optional attributes that the read
path nulls out on failure are `Option`; the repeatable attributes are lists
accumulated by the probe loops. -/
structure IMCDFGlobalAttr where
  format_description : String
  format_version : String
  title : String
  iaga_code : String
  elements_recorded : String
  pub_level : IMCDFPubLevel
  pub_date : Int
  observatory_name : String
  latitude : Rat
  longitude : Rat
  elevation : Rat
  institution : String
  vector_sens_orient : Option String
  standard_level : IMCDFStandardLevel
  standard_name : Option String
  standard_version : Option String
  partial_stand_desc : Option String
  source : String
  terms_of_use : Option String
  unique_identifier : Option String
  parent_identifiers : List String
  reference_links : List String

/-- A required string attribute read:
`if (imcdf_get_global_attribute_string (...)) return format_error_message ("Error reading global attribute", name, ...)`. -/
def reqStr (c : Container) (name : String) : Except ImcdfError String :=
  match c.strAttr name 0 with
  | some s => .ok s
  | none => .error ⟨"Error reading global attribute", some name, NOT_FOUND_STATUS⟩

/-- A required double attribute read. -/
def reqDbl (c : Container) (name : String) : Except ImcdfError Rat :=
  match c.dblAttr name 0 with
  | some v => .ok v
  | none => .error ⟨"Error reading global attribute", some name, NOT_FOUND_STATUS⟩

/-- A required epoch attribute read. -/
def reqTT (c : Container) (name : String) : Except ImcdfError Int :=
  match c.ttAttr name 0 with
  | some v => .ok v
  | none => .error ⟨"Error reading global attribute", some name, NOT_FOUND_STATUS⟩

/-- The index-probe discovery loop: collect entries `i`, `i+1`, … of a
repeatable attribute until the first not-found, within `fuel` steps. -/
def probeGo (c : Container) (name : String) (i : Nat) : Nat → List String
  | 0 => []
  | fuel + 1 =>
    match c.strAttr name i with
    | some s => s :: probeGo c name (i + 1) fuel
    | none => []

/-- Probe a repeatable attribute from entry 0. -/
def probeEntries (c : Container) (name : String) : List String :=
  probeGo c name 0 c.entryFuel

/-- The canonical title string. -/
def CANONICAL_TITLE : String := "Geomagnetic time series data"

/-- The canonical format-description string. -/
def CANONICAL_FORMAT_DESCRIPTION : String := "INTERMAGNET CDF Format"

/-- `imcdf_read_global_attrs`: read every global attribute in source order
(required reads propagate failure; the six optional reads null the field
instead), run the two probe loops, then validate title, format description
and format version.  The realloc-failure paths are not modelled. -/
def imcdf_read_global_attrs (c : Container) : Except ImcdfError IMCDFGlobalAttr := do
  let format_description ← reqStr c "FormatDescription"
  let format_version ← reqStr c "FormatVersion"
  let title ← reqStr c "Title"
  let iaga_code ← reqStr c "IagaCode"
  let elements_recorded ← reqStr c "ElementsRecorded"
  let pl_str ← reqStr c "PublicationLevel"
  let pub_date ← reqTT c "PublicationDate"
  let observatory_name ← reqStr c "ObservatoryName"
  let latitude ← reqDbl c "Latitude"
  let longitude ← reqDbl c "Longitude"
  let elevation ← reqDbl c "Elevation"
  let institution ← reqStr c "Institution"
  let vector_sens_orient := c.strAttr "VectorSensOrient" 0
  let sl_str ← reqStr c "StandardLevel"
  let standard_name := c.strAttr "StandardName" 0
  let standard_version := c.strAttr "StandardVersion" 0
  let partial_stand_desc := c.strAttr "PartialStandDesc" 0
  let source ← reqStr c "Source"
  let terms_of_use := c.strAttr "TermsOfUse" 0
  let unique_identifier := c.strAttr "UniqueIdentifier" 0
  let pub_level := imcdf_parse_pub_level_string pl_str
  let standard_level := imcdf_parse_standard_level_string sl_str
  let parent_identifiers := probeEntries c "ParentIdentifiers"
  let reference_links := probeEntries c "ReferenceLinks"
  if strcaseEq title CANONICAL_TITLE = false then
    Except.error ⟨"Title of data incorrect", some title, CDF_OK⟩
  else if strcaseEq format_description CANONICAL_FORMAT_DESCRIPTION = false then
    Except.error ⟨"Description of data incorrect", some format_description, CDF_OK⟩
  else
    let imcdf_version := versionTenths format_version
    if imcdf_version < 11 ∨ 13 < imcdf_version then
      Except.error ⟨"Format incorrect", some format_version, CDF_OK⟩
    else
      pure { format_description, format_version, title, iaga_code,
             elements_recorded, pub_level, pub_date, observatory_name,
             latitude, longitude, elevation, institution, vector_sens_orient,
             standard_level, standard_name, standard_version,
             partial_stand_desc, source, terms_of_use, unique_identifier,
             parent_identifiers, reference_links }

/-! ## The container collaborator, write side -/

/-- A typed variable-scope attribute value. -/
inductive CDFAttrValue where
  | str (s : String)
  | dbl (q : Rat)
  | tt (t : Int)
deriving DecidableEq, Repr

/-- Write-side container state: record-varying double arrays, record-varying
epoch arrays, and variable-scope attributes addressed by
(attribute name, variable name).  Attribute stores accept every write (the
collaborator's own I/O failures are out of scope). -/
structure WContainer where
  dataVars : String → Option (List Rat)
  tsVars : String → Option (List Int)
  varAttrs : String → String → Option CDFAttrValue

/-- The empty (freshly created) container. -/
def WContainer.empty : WContainer :=
  ⟨fun _ => none, fun _ => none, fun _ _ => none⟩

/-- Replace the epoch array stored under `name`. -/
def WContainer.putTS (c : WContainer) (name : String) (v : List Int) : WContainer :=
  { c with tsVars := fun n => if n = name then some v else c.tsVars n }

/-- Replace the double array stored under `name`. -/
def WContainer.putData (c : WContainer) (name : String) (v : List Rat) : WContainer :=
  { c with dataVars := fun n => if n = name then some v else c.dataVars n }

/-- `imcdf_add_variable_attr_*`: store one variable-scope attribute entry. -/
def WContainer.addVarAttr (c : WContainer) (attr var : String) (v : CDFAttrValue) : WContainer :=
  { c with varAttrs := fun a n => if a = attr ∧ n = var then some v else c.varAttrs a n }

/-- `CDFputzVarRecordData` on a contiguously written variable: overwrite an
existing record, append at one past the end, or pad (with `pad`) up to a
sparse index.  The appends issued by this code are always at exactly one past
the end. -/
def putRecord (pad : α) (l : List α) (i : Nat) (v : α) : List α :=
  if i < l.length then l.set i v
  else l ++ List.replicate (i - l.length) pad ++ [v]

/-- The record-write loop of `imcdf_append_data_array` /
`imcdf_append_time_stamp_array`: write `data` to consecutive records starting
at index `i`. -/
def putRecords (pad : α) : List α → Nat → List α → List α
  | l, _, [] => l
  | l, i, v :: vs => putRecords pad (putRecord pad l i v) (i + 1) vs

/-- The body of the append routines given the existing contents `l`:
`CDFgetzVarMaxWrittenRecNum` returns `l.length - 1` (`-1` when empty), the
code increments it, and the loop writes `data` from that record on. -/
def appendRecords (pad : α) (l : List α) (data : List α) : List α :=
  putRecords pad l l.length data

/-- `imcdf_append_time_stamp_array`: fails (`none` models the `-1` return)
when the variable does not exist (`CDFgetVarNum < 0`); otherwise appends
starting at one past the highest written record. -/
def imcdf_append_time_stamp_array (c : WContainer) (name : String)
    (data : List Int) : Option WContainer :=
  match c.tsVars name with
  | none => none
  | some l => some (c.putTS name (appendRecords 0 l data))

/-- `imcdf_append_data_array`: same protocol for double arrays. -/
def imcdf_append_data_array (c : WContainer) (name : String)
    (data : List Rat) : Option WContainer :=
  match c.dataVars name with
  | none => none
  | some l => some (c.putData name (appendRecords 0 l data))

/-- `imcdf_create_time_stamp_array`: `CDFcreatezVar` (an existing variable
yields the `VAR_EXISTS` status, which the check
`(cdf_status < CDF_WARN) && (cdf_status != VAR_EXISTS)` absorbs), then
append. -/
def imcdf_create_time_stamp_array (c : WContainer) (name : String)
    (data : List Int) : Option WContainer :=
  let created : WContainer × Int :=
    match c.tsVars name with
    | some _ => (c, VAR_EXISTS_STATUS)
    | none => (c.putTS name [], CDF_OK)
  if created.2 < CDF_WARN ∧ created.2 ≠ VAR_EXISTS_STATUS then none
  else imcdf_append_time_stamp_array created.1 name data

/-- `imcdf_create_data_array`: same protocol for double arrays. -/
def imcdf_create_data_array (c : WContainer) (name : String)
    (data : List Rat) : Option WContainer :=
  let created : WContainer × Int :=
    match c.dataVars name with
    | some _ => (c, VAR_EXISTS_STATUS)
    | none => (c.putData name [], CDF_OK)
  if created.2 < CDF_WARN ∧ created.2 ≠ VAR_EXISTS_STATUS then none
  else imcdf_append_data_array created.1 name data

/-- `struct IMCDFVariableTS`. -/
structure IMCDFVariableTS where
  var_name : String
  time_stamps : List Int

/-- `imcdf_write_time_stamps`. -/
def imcdf_write_time_stamps (c : WContainer) (ts : IMCDFVariableTS) :
    Except ImcdfError WContainer :=
  match imcdf_create_time_stamp_array c ts.var_name ts.time_stamps with
  | some c' => .ok c'
  | none => .error ⟨"Error writing time stamp data", some ts.var_name, CDF_OK⟩

/-- `struct IMCDFVariable`. -/
structure IMCDFVariable where
  var_type : IMCDFVariableType
  elem_rec : String
  field_nam : String
  units : String
  fill_val : Rat
  valid_min : Rat
  valid_max : Rat
  depend_0 : String
  data : List Rat

/-- The `DEPEND_0` resolution block of `imcdf_write_variable`: the variable's
own stored value when `use_given_depend_0`, else the vector / scalar
timestamp name by classification, the per-channel temperature pattern for
temperature variables, and the invalid-element error for everything else. -/
def resolve_depend_0 (v : IMCDFVariable) (use_given_depend_0 : Bool) :
    Except ImcdfError String :=
  if use_given_depend_0 then .ok v.depend_0
  else if imcdf_is_vector_gm_data v.var_type v.elem_rec then
    .ok VECTOR_TIME_STAMPS_VAR_NAME
  else if imcdf_is_scalar_gm_data v.var_type v.elem_rec then
    .ok SCALAR_TIME_STAMPS_VAR_NAME
  else if v.var_type ≠ .temperature then
    .error ⟨"Missing or invalid element code", none, CDF_OK⟩
  else .ok (temperatureTimeStampsName v.elem_rec)

/-- `imcdf_write_variable`: derive the variable name, write the sample array,
resolve `DEPEND_0` (the given value verbatim, or derived from the
classification), then write the metadata attributes in source order. -/
def imcdf_write_variable (c : WContainer) (v : IMCDFVariable)
    (use_given_depend_0 : Bool) : Except ImcdfError WContainer :=
  match create_var_name v.var_type v.elem_rec with
  | none => .error ⟨"Invalid variable type", none, CDF_OK⟩
  | some var_name =>
    match imcdf_create_data_array c var_name v.data with
    | none => .error ⟨"Error writing variable data", some var_name, CDF_OK⟩
    | some c1 =>
      match resolve_depend_0 v use_given_depend_0 with
      | .error e => .error e
      | .ok depend_0 =>
        let lablaxis :=
          if v.var_type = .temperature then "Temperature " ++ v.elem_rec
          else v.elem_rec
        let c2 := c1.addVarAttr "FIELDNAM" var_name (.str v.field_nam)
        let c3 := c2.addVarAttr "UNITS" var_name (.str v.units)
        let c4 := c3.addVarAttr "FILLVAL" var_name (.dbl v.fill_val)
        let c5 := c4.addVarAttr "VALIDMIN" var_name (.dbl v.valid_min)
        let c6 := c5.addVarAttr "VALIDMAX" var_name (.dbl v.valid_max)
        let c7 := c6.addVarAttr "DEPEND_0" var_name (.str depend_0)
        let c8 := c7.addVarAttr "DISPLAY_TYPE" var_name (.str "time_series")
        let c9 := c8.addVarAttr "LABLAXIS" var_name (.str lablaxis)
        .ok c9

/-! ## Filename synthesis (imcdf.c) -/

/-- The cadence switch of `imcdf_make_filename`:
{annual→"p1y", monthly→"p1m", daily→"p1d", hourly→"pt1h", minute→"pt1m",
second→"pt1s", default→"unkn"}. -/
def cadenceTag : IMCDFInterval → String
  | .annual => "p1y"
  | .monthly => "p1m"
  | .daily => "p1d"
  | .hourly => "pt1h"
  | .minute => "pt1m"
  | .second => "pt1s"
  | .unknown => "unkn"

/-- The coverage switch of `imcdf_make_filename`: the date/time fragment whose
precision is set by the coverage value, with the cadence tag appended after
an underscore (the `sprintf` patterns `"%04d_%s"` … `"%04d%02d%02d_%02d%02d%02d_%s"`). -/
def coverageFragment (coverage : IMCDFInterval) (year month day hour minute sec : Int)
    (cadence_str : String) : String :=
  match coverage with
  | .annual => zpadInt 4 year ++ "_" ++ cadence_str
  | .monthly => zpadInt 4 year ++ zpadInt 2 month ++ "_" ++ cadence_str
  | .daily =>
    zpadInt 4 year ++ zpadInt 2 month ++ zpadInt 2 day ++ "_" ++ cadence_str
  | .hourly =>
    zpadInt 4 year ++ zpadInt 2 month ++ zpadInt 2 day ++ "_" ++
    zpadInt 2 hour ++ "_" ++ cadence_str
  | .minute =>
    zpadInt 4 year ++ zpadInt 2 month ++ zpadInt 2 day ++ "_" ++
    zpadInt 2 hour ++ zpadInt 2 minute ++ "_" ++ cadence_str
  | _ =>
    zpadInt 4 year ++ zpadInt 2 month ++ zpadInt 2 day ++ "_" ++
    zpadInt 2 hour ++ zpadInt 2 minute ++ zpadInt 2 sec ++ "_" ++ cadence_str

/-- `imcdf_make_filename`: decompose the start epoch, pick the cadence tag,
build the coverage-precision date fragment, assemble
`prefix + station + "_" + fragment + "_" + pubLevel + ".cdf"`, then lowercase
everything after the prefix when asked to.  A pure function of its inputs. -/
def imcdf_make_filename (pre station_code : String) (start_date : Int)
    (pub_level : IMCDFPubLevel) (cadence coverage : IMCDFInterval)
    (force_lower_case : Bool) : String :=
  match imcdf_tt2000_to_date_time start_date with
  | (year, month, day, hour, minute, sec) =>
    let file_base := coverageFragment coverage year month day hour minute sec
      (cadenceTag cadence)
    let filename := pre ++ station_code ++ "_" ++ file_base ++ "_" ++
      imcdf_pub_level_code_tostring pub_level ++ ".cdf"
    if force_lower_case then strLowerFrom pre.length filename else filename

/-! ## Concrete containers used to instantiate the theorems -/

/-- A read container with every required attribute present, the FormatVersion
and PublicationLevel strings as parameters, the six optional attributes
absent, and no repeatable entries. -/
def sampleContainer (fv pl : String) : Container where
  strAttr := fun name i =>
    if i ≠ 0 then none
    else if name = "FormatDescription" then some CANONICAL_FORMAT_DESCRIPTION
    else if name = "FormatVersion" then some fv
    else if name = "Title" then some CANONICAL_TITLE
    else if name = "IagaCode" then some "AFO"
    else if name = "ElementsRecorded" then some "HDZS"
    else if name = "PublicationLevel" then some pl
    else if name = "ObservatoryName" then some "A Fake Observatory"
    else if name = "Institution" then some "INTERMAGNET"
    else if name = "StandardLevel" then some "None"
    else if name = "Source" then some "INTERMAGNET"
    else none
  dblAttr := fun name i =>
    if i ≠ 0 then none
    else if name = "Latitude" ∨ name = "Longitude" ∨ name = "Elevation" then some 0
    else none
  ttAttr := fun name i =>
    if name = "PublicationDate" ∧ i = 0 then some 0 else none
  entryFuel := 4

/-- A read container with no attributes at all. -/
def emptyContainer : Container where
  strAttr := fun _ _ => none
  dblAttr := fun _ _ => none
  ttAttr := fun _ _ => none
  entryFuel := 0

end Imcdf

namespace Imcdf

/-! ## Helper lemmas -/

@[simp]
theorem except_ok_bind {ε α β : Type _} (a : α) (f : α → Except ε β) :
    (Except.ok a >>= f) = f a := rfl

@[simp]
theorem except_error_bind {ε α β : Type _} (e : ε) (f : α → Except ε β) :
    ((Except.error e : Except ε α) >>= f) = Except.error e := rfl

@[simp]
theorem except_isOk_ok {ε α : Type _} (a : α) :
    (Except.ok a : Except ε α).isOk = true := rfl

@[simp]
theorem except_isOk_error {ε α : Type _} (e : ε) :
    (Except.error e : Except ε α).isOk = false := rfl

@[simp]
theorem except_pure_eq_ok {ε α : Type _} (a : α) :
    (pure a : Except ε α) = Except.ok a := rfl

theorem except_isOk_bind_iff {ε α β : Type _} (x : Except ε α) (f : α → Except ε β) :
    ((x >>= f).isOk = true) ↔ ∃ a, x = .ok a ∧ (f a).isOk = true := by
  cases x <;> simp

theorem char_toNat_ofNat {n : Nat} (h : n < 55296) : (Char.ofNat n).toNat = n := by
  have hv : Nat.isValidChar n := Or.inl h
  simp [Char.ofNat, hv, Char.toNat, Char.ofNatAux, UInt32.toNat, UInt32.ofNatCore]

theorem ctoupper_idem (c : Char) : ctoupper (ctoupper c) = ctoupper c := by
  unfold ctoupper
  by_cases h : 97 ≤ c.toNat ∧ c.toNat ≤ 122
  · rw [if_pos h, char_toNat_ofNat (by omega), if_neg (by omega)]
  · rw [if_neg h, if_neg h]

theorem headChar_singleton (c : Char) : headChar (String.singleton c) = c := rfl

theorem string_data_append (a b : String) : (a ++ b).data = a.data ++ b.data := by
  cases a; cases b; rfl

theorem string_length_eq_data (s : String) : s.length = s.data.length := rfl

theorem putRecord_at_length {α : Type _} (pad : α) (l : List α) (v : α) :
    putRecord pad l l.length v = l ++ [v] := by
  simp [putRecord]

theorem putRecords_from_length {α : Type _} (pad : α) (data : List α) :
    ∀ l : List α, putRecords pad l l.length data = l ++ data := by
  induction data with
  | nil => intro l; simp [putRecords]
  | cons v vs ih =>
    intro l
    rw [putRecords, putRecord_at_length]
    have h := ih (l ++ [v])
    simp only [List.length_append, List.length_singleton] at h
    rw [h, List.append_assoc]
    rfl

/-- The append routines extend the existing contents: writing records at
`maxWrittenRecNum + 1, …` on a contiguously written array appends. -/
theorem appendRecords_eq_append {α : Type _} (pad : α) (l data : List α) :
    appendRecords pad l data = l ++ data :=
  putRecords_from_length pad data l

/-- `imcdf_create_data_array` always succeeds in the model, leaves attributes
and epoch arrays unchanged, and extends the named double array. -/
theorem create_data_array_spec (c : WContainer) (name : String) (data : List Rat) :
    ∃ c', imcdf_create_data_array c name data = some c' ∧
      c'.varAttrs = c.varAttrs ∧ c'.tsVars = c.tsVars ∧
      c'.dataVars name = some (((c.dataVars name).getD []) ++ data) := by
  rcases h : c.dataVars name with _ | l
  · refine ⟨(c.putData name []).putData name (appendRecords 0 [] data), ?_, rfl, rfl, ?_⟩
    · simp [imcdf_create_data_array, imcdf_append_data_array, WContainer.putData, h,
            VAR_EXISTS_STATUS, CDF_WARN, CDF_OK]
    · simp [WContainer.putData, appendRecords_eq_append, h]
  · refine ⟨c.putData name (appendRecords 0 l data), ?_, rfl, rfl, ?_⟩
    · simp [imcdf_create_data_array, imcdf_append_data_array, h,
            VAR_EXISTS_STATUS, CDF_WARN, CDF_OK]
    · simp [WContainer.putData, appendRecords_eq_append, h]

/-- `imcdf_write_variable` on a resolvable name and dependency: the write
completes and the `DEPEND_0` attribute of the derived variable holds the
resolved dependency string. -/
theorem write_variable_ok_spec (c : WContainer) (v : IMCDFVariable) (ug : Bool)
    (n dep : String)
    (hn : create_var_name v.var_type v.elem_rec = some n)
    (hdep : resolve_depend_0 v ug = .ok dep) :
    ∃ c', imcdf_write_variable c v ug = .ok c' ∧
      c'.varAttrs "DEPEND_0" n = some (.str dep) := by
  obtain ⟨c1, hc1, ha, hts, hd⟩ := create_data_array_spec c n v.data
  refine ⟨((((((((c1.addVarAttr "FIELDNAM" n (.str v.field_nam)).addVarAttr "UNITS" n
    (.str v.units)).addVarAttr "FILLVAL" n (.dbl v.fill_val)).addVarAttr "VALIDMIN" n
    (.dbl v.valid_min)).addVarAttr "VALIDMAX" n (.dbl v.valid_max)).addVarAttr "DEPEND_0" n
    (.str dep)).addVarAttr "DISPLAY_TYPE" n (.str "time_series")).addVarAttr "LABLAXIS" n
    (.str (if v.var_type = .temperature then "Temperature " ++ v.elem_rec
           else v.elem_rec))), ?_, ?_⟩
  · simp only [imcdf_write_variable, hn, hc1, hdep]
  · simp [WContainer.addVarAttr]

/-- A scalar geomagnetic code is never classified as a vector code. -/
theorem scalar_not_vector (t : IMCDFVariableType) (s : String)
    (h : imcdf_is_scalar_gm_data t s = true) :
    imcdf_is_vector_gm_data t s = false := by
  cases t <;> simp [imcdf_is_scalar_gm_data] at h <;>
    rcases h with h | h <;> simp [imcdf_is_vector_gm_data, h]

theorem string_append_assoc (a b c : String) : a ++ b ++ c = a ++ (b ++ c) := by
  cases a; cases b; cases c
  show String.mk _ = String.mk _
  simp

/-- The `tolower` loop of `imcdf_make_filename` starts `strlen (prefix)`
characters in: on `prefix ++ rest` it lowercases exactly `rest`. -/
theorem strLowerFrom_append (a b : String) :
    strLowerFrom a.length (a ++ b) = a ++ lowerString b := by
  cases a with | mk ad =>
  cases b with | mk bd =>
  show String.mk (((ad ++ bd).take ad.length) ++
      ((ad ++ bd).drop ad.length).map ctolower) =
    String.mk (ad ++ bd.map ctolower)
  rw [List.take_left, List.drop_left]

/-- A vector classification forces the GeomagneticFieldElement type. -/
theorem vector_type_eq (v : IMCDFVariable)
    (h : imcdf_is_vector_gm_data v.var_type v.elem_rec = true) :
    v.var_type = .geomagneticFieldElement := by
  by_contra hne
  unfold imcdf_is_vector_gm_data at h
  rw [if_pos hne] at h
  exact absurd h (by decide)

/-- A scalar classification forces the GeomagneticFieldElement type. -/
theorem scalar_type_eq (v : IMCDFVariable)
    (h : imcdf_is_scalar_gm_data v.var_type v.elem_rec = true) :
    v.var_type = .geomagneticFieldElement := by
  by_contra hne
  unfold imcdf_is_scalar_gm_data at h
  rw [if_pos hne] at h
  exact absurd h (by decide)

/-! ## Claim theorems -/

/-- C3: for every variable type and element code, `imcdf_is_vector_gm_data`
holds exactly when the type is GeomagneticFieldElement and the (uppercased
first character of the) code is one of {X,Y,Z,H,D,E,V,I,F}, and
`imcdf_is_scalar_gm_data` exactly when it is one of {S,G}; concrete instances
H/S, and both functions are false on every code under the Temperature (and
error) types. -/
theorem claim_C3_classification :
    (∀ (t : IMCDFVariableType) (s : String),
      (imcdf_is_vector_gm_data t s = true ↔
        t = .geomagneticFieldElement ∧
          ctoupper (headChar s) ∈ ['X', 'Y', 'Z', 'H', 'D', 'E', 'V', 'I', 'F']) ∧
      (imcdf_is_scalar_gm_data t s = true ↔
        t = .geomagneticFieldElement ∧ ctoupper (headChar s) ∈ ['S', 'G'])) ∧
    imcdf_is_vector_gm_data .geomagneticFieldElement "H" = true ∧
    imcdf_is_vector_gm_data .geomagneticFieldElement "S" = false ∧
    imcdf_is_scalar_gm_data .geomagneticFieldElement "S" = true ∧
    imcdf_is_scalar_gm_data .geomagneticFieldElement "H" = false ∧
    (∀ s, imcdf_is_vector_gm_data .temperature s = false ∧
          imcdf_is_scalar_gm_data .temperature s = false ∧
          imcdf_is_vector_gm_data .error s = false ∧
          imcdf_is_scalar_gm_data .error s = false) := by
  refine ⟨fun t s => ⟨?_, ?_⟩, by decide, by decide, by decide, by decide, fun s => ?_⟩
  · cases t <;> simp [imcdf_is_vector_gm_data] <;> tauto
  · cases t <;> simp [imcdf_is_scalar_gm_data] <;> tauto
  · simp [imcdf_is_vector_gm_data, imcdf_is_scalar_gm_data]

/-- C10: both classifiers depend only on the uppercased first character of a
non-empty element code — each agrees with its value on the one-character
string holding `toupper (s[0])`; in particular "h" and "Hxyz" are classified
exactly like "H". -/
theorem claim_C10_first_char_case_insensitive :
    (∀ (t : IMCDFVariableType) (s : String), s ≠ "" →
      imcdf_is_vector_gm_data t s =
        imcdf_is_vector_gm_data t (String.singleton (ctoupper (headChar s))) ∧
      imcdf_is_scalar_gm_data t s =
        imcdf_is_scalar_gm_data t (String.singleton (ctoupper (headChar s)))) ∧
    imcdf_is_vector_gm_data .geomagneticFieldElement "h" = true ∧
    imcdf_is_vector_gm_data .geomagneticFieldElement "Hxyz" = true ∧
    imcdf_is_scalar_gm_data .geomagneticFieldElement "s" = true ∧
    imcdf_is_scalar_gm_data .geomagneticFieldElement "Sxy" = true := by
  refine ⟨fun t s _ => ⟨?_, ?_⟩, by decide, by decide, by decide, by decide⟩ <;>
    simp [imcdf_is_vector_gm_data, imcdf_is_scalar_gm_data, headChar_singleton,
          ctoupper_idem]

/-- C10 witness at the concrete input "Hxyz". -/
theorem claim_C10_witness :
    ("Hxyz" : String) ≠ "" ∧
    imcdf_is_vector_gm_data .geomagneticFieldElement "Hxyz" =
      imcdf_is_vector_gm_data .geomagneticFieldElement
        (String.singleton (ctoupper (headChar "Hxyz"))) :=
  ⟨by decide, (claim_C10_first_char_case_insensitive.1 _ "Hxyz" (by decide)).1⟩

/-- C8: the container variable name is the type prefix concatenated with the
element code — but there is no total-length check anywhere: a 14-character
code yields a 30-character name (31 bytes with the terminator, exceeding the
`char var_name [30]` buffer), and `imcdf_write_variable` still completes
instead of rejecting the write. -/
theorem claim_C8_no_length_ceiling_check :
    (∀ er, create_var_name .geomagneticFieldElement er = some ("GeomagneticField" ++ er)) ∧
    (∀ er, create_var_name .temperature er = some ("Temperature" ++ er)) ∧
    create_var_name .geomagneticFieldElement "AAAAAAAAAAAAAA" =
      some "GeomagneticFieldAAAAAAAAAAAAAA" ∧
    VAR_NAME_BUF_LEN < ("GeomagneticFieldAAAAAAAAAAAAAA" : String).length + 1 ∧
    (imcdf_write_variable WContainer.empty
      ⟨.geomagneticFieldElement, "AAAAAAAAAAAAAA", "field", "nT", 99999, 0, 1,
       "GeomagneticVectorTimes", []⟩ true).isOk = true := by
  exact ⟨fun er => rfl, fun er => rfl, rfl, by decide, rfl⟩

/-- C2: `DEPEND_0` resolution for a written variable.  With
`use_given_depend_0` false: a vector geomagnetic element gets
"GeomagneticVectorTimes", a scalar one gets "GeomagneticScalarTimes", a
Temperature variable with code c gets "Temperature" ++ c ++ "Times", and a
GeomagneticFieldElement whose code is neither vector nor scalar makes the
write fail with the invalid-element error.  With `use_given_depend_0` true
the variable's own stored dependency string is written verbatim. -/
theorem claim_C2_depend0_resolution :
    (∀ (c : WContainer) (v : IMCDFVariable),
      imcdf_is_vector_gm_data v.var_type v.elem_rec = true →
        ∃ c', imcdf_write_variable c v false = .ok c' ∧
          c'.varAttrs "DEPEND_0" ("GeomagneticField" ++ v.elem_rec) =
            some (.str VECTOR_TIME_STAMPS_VAR_NAME)) ∧
    (∀ (c : WContainer) (v : IMCDFVariable),
      imcdf_is_scalar_gm_data v.var_type v.elem_rec = true →
        ∃ c', imcdf_write_variable c v false = .ok c' ∧
          c'.varAttrs "DEPEND_0" ("GeomagneticField" ++ v.elem_rec) =
            some (.str SCALAR_TIME_STAMPS_VAR_NAME)) ∧
    (∀ (c : WContainer) (v : IMCDFVariable),
      v.var_type = .temperature →
        ∃ c', imcdf_write_variable c v false = .ok c' ∧
          c'.varAttrs "DEPEND_0" ("Temperature" ++ v.elem_rec) =
            some (.str (temperatureTimeStampsName v.elem_rec))) ∧
    (∀ (c : WContainer) (v : IMCDFVariable),
      v.var_type = .geomagneticFieldElement →
      imcdf_is_vector_gm_data v.var_type v.elem_rec = false →
      imcdf_is_scalar_gm_data v.var_type v.elem_rec = false →
        imcdf_write_variable c v false =
          .error ⟨"Missing or invalid element code", none, CDF_OK⟩) ∧
    (∀ (c : WContainer) (v : IMCDFVariable) (n : String),
      create_var_name v.var_type v.elem_rec = some n →
        ∃ c', imcdf_write_variable c v true = .ok c' ∧
          c'.varAttrs "DEPEND_0" n = some (.str v.depend_0)) := by
  refine ⟨fun c v h => ?_, fun c v h => ?_, fun c v ht => ?_,
          fun c v ht hv hs => ?_, fun c v n hn => ?_⟩
  · have ht := vector_type_eq v h
    have hn : create_var_name v.var_type v.elem_rec =
        some ("GeomagneticField" ++ v.elem_rec) := by rw [ht]; rfl
    exact write_variable_ok_spec c v false _ _ hn (by simp [resolve_depend_0, h])
  · have ht := scalar_type_eq v h
    have hv := scalar_not_vector _ _ h
    have hn : create_var_name v.var_type v.elem_rec =
        some ("GeomagneticField" ++ v.elem_rec) := by rw [ht]; rfl
    exact write_variable_ok_spec c v false _ _ hn (by simp [resolve_depend_0, h, hv])
  · have hn : create_var_name v.var_type v.elem_rec =
        some ("Temperature" ++ v.elem_rec) := by rw [ht]; rfl
    have hdep : resolve_depend_0 v false = .ok (temperatureTimeStampsName v.elem_rec) := by
      simp [resolve_depend_0, imcdf_is_vector_gm_data, imcdf_is_scalar_gm_data, ht]
    exact write_variable_ok_spec c v false _ _ hn hdep
  · obtain ⟨c1, hc1, -, -, -⟩ :=
      create_data_array_spec c ("GeomagneticField" ++ v.elem_rec) v.data
    have hn : create_var_name v.var_type v.elem_rec =
        some ("GeomagneticField" ++ v.elem_rec) := by rw [ht]; rfl
    have hdep : resolve_depend_0 v false =
        .error ⟨"Missing or invalid element code", none, CDF_OK⟩ := by
      rw [ht] at hv hs
      simp [resolve_depend_0, hv, hs, ht]
    simp only [imcdf_write_variable, hn, hc1, hdep]
  · exact write_variable_ok_spec c v true n v.depend_0 hn (by simp [resolve_depend_0])

/-- C2 witness at the claim's concrete inputs: a GeomagneticFieldElement
variable with code "D" resolves to "GeomagneticVectorTimes"; a Temperature
variable with code "2" resolves to "Temperature2Times". -/
theorem claim_C2_witness :
    (∃ c', imcdf_write_variable WContainer.empty
        ⟨.geomagneticFieldElement, "D", "f", "deg", 99999, -360, 360, "", []⟩ false =
          .ok c' ∧
      c'.varAttrs "DEPEND_0" "GeomagneticFieldD" =
        some (.str "GeomagneticVectorTimes")) ∧
    (∃ c', imcdf_write_variable WContainer.empty
        ⟨.temperature, "2", "t", "C", 99999, -100, 100, "", []⟩ false = .ok c' ∧
      c'.varAttrs "DEPEND_0" "Temperature2" = some (.str "Temperature2Times")) :=
  ⟨claim_C2_depend0_resolution.1 WContainer.empty
      ⟨.geomagneticFieldElement, "D", "f", "deg", 99999, -360, 360, "", []⟩ (by decide),
   claim_C2_depend0_resolution.2.2.1 WContainer.empty
      ⟨.temperature, "2", "t", "C", 99999, -100, 100, "", []⟩ rfl⟩

/-- C5: `imcdf_write_time_stamps` creates the epoch record array idempotently
(the `VAR_EXISTS` status of the second create is absorbed, not an error) and
appends at one past the highest written record: writing `xs` and then `ys`
under the same name succeeds twice and leaves the array holding `xs ++ ys`. -/
theorem claim_C5_time_stamps_extend (c : WContainer) (name : String)
    (xs ys : List Int) (h : c.tsVars name = none) :
    ∃ c1 c2,
      imcdf_write_time_stamps c ⟨name, xs⟩ = .ok c1 ∧
      c1.tsVars name = some xs ∧
      imcdf_write_time_stamps c1 ⟨name, ys⟩ = .ok c2 ∧
      c2.tsVars name = some (xs ++ ys) := by
  refine ⟨(c.putTS name []).putTS name (appendRecords 0 [] xs),
          ((c.putTS name []).putTS name (appendRecords 0 [] xs)).putTS name
            (appendRecords 0 (appendRecords 0 [] xs) ys), ?_, ?_, ?_, ?_⟩
  · simp [imcdf_write_time_stamps, imcdf_create_time_stamp_array,
          imcdf_append_time_stamp_array, WContainer.putTS, h,
          VAR_EXISTS_STATUS, CDF_WARN, CDF_OK]
  · simp [WContainer.putTS, appendRecords_eq_append]
  · simp [imcdf_write_time_stamps, imcdf_create_time_stamp_array,
          imcdf_append_time_stamp_array, WContainer.putTS,
          VAR_EXISTS_STATUS, CDF_WARN, CDF_OK]
  · simp [WContainer.putTS, appendRecords_eq_append]

/-- C5 witness: two writes to a fresh name on the empty container leave the
concatenation stored. -/
theorem claim_C5_witness :
    (WContainer.empty.tsVars "GeomagneticVectorTimes" = none) ∧
    ∃ c1 c2,
      imcdf_write_time_stamps WContainer.empty ⟨"GeomagneticVectorTimes", [10, 20]⟩ =
        .ok c1 ∧
      c1.tsVars "GeomagneticVectorTimes" = some [10, 20] ∧
      imcdf_write_time_stamps c1 ⟨"GeomagneticVectorTimes", [30]⟩ = .ok c2 ∧
      c2.tsVars "GeomagneticVectorTimes" = some ([10, 20] ++ [30]) :=
  ⟨rfl, claim_C5_time_stamps_extend WContainer.empty "GeomagneticVectorTimes"
          [10, 20] [30] rfl⟩

theorem tt2000ArrayLoop_length (inc t : Int) (n : Nat) :
    (tt2000ArrayLoop inc t n).length = n := by
  induction n generalizing t with
  | zero => simp [tt2000ArrayLoop]
  | succ m ih => simp [tt2000ArrayLoop, ih]

theorem tt2000ArrayLoop_get (inc : Int) (n : Nat) :
    ∀ (t : Int) (i : Nat), i < n →
      (tt2000ArrayLoop inc t n)[i]? = some (t + i * (inc * 1000000000)) := by
  induction n with
  | zero => intro t i hi; omega
  | succ m ih =>
    intro t i hi
    cases i with
    | zero => simp [tt2000ArrayLoop]
    | succ j =>
      have hj := ih (imcdf_tt2000_inc t inc) j (by omega)
      show (t :: tt2000ArrayLoop inc (imcdf_tt2000_inc t inc) m)[j + 1]? = _
      rw [List.getElem?_cons_succ, hj]
      simp only [imcdf_tt2000_inc, Option.some.injEq]
      push_cast
      ring

/-- C7: the generated timestamp array has its i-th element equal to the start
epoch plus `i * increment * 1e9` nanoseconds, and the inferred sample period
of that array is the increment again — computed from the first two entries
only, regardless of the rest of the array. -/
theorem claim_C7_uniform_spacing (y mo d h mi s inc : Int) (n : Nat) (t0 : Int)
    (hn : 2 ≤ n)
    (hconv : imcdf_date_time_to_tt2000 y mo d h mi s = some t0) :
    ∃ arr, imcdf_make_tt2000_array y mo d h mi s inc n = some arr ∧
      arr.length = n ∧
      (∀ i : Nat, i < n → arr[i]? = some (t0 + i * (inc * 1000000000))) ∧
      imcdf_calc_samp_per_from_tt2000 arr = inc ∧
      (∀ l₁ l₂ : List Int, l₁[0]? = l₂[0]? → l₁[1]? = l₂[1]? →
        imcdf_calc_samp_per_from_tt2000 l₁ = imcdf_calc_samp_per_from_tt2000 l₂) := by
  refine ⟨tt2000ArrayLoop inc t0 n, ?_, tt2000ArrayLoop_length inc t0 n,
          fun i hi => tt2000ArrayLoop_get inc n t0 i hi, ?_, ?_⟩
  · simp [imcdf_make_tt2000_array, hconv]
  · have h0 := tt2000ArrayLoop_get inc n t0 0 (by omega)
    have h1 := tt2000ArrayLoop_get inc n t0 1 (by omega)
    simp only [imcdf_calc_samp_per_from_tt2000, h0, h1, Option.getD_some]
    have hdiff : (t0 + (1 : Nat) * (inc * 1000000000)) -
        (t0 + (0 : Nat) * (inc * 1000000000)) = inc * 1000000000 := by
      push_cast; ring
    rw [hdiff]
    exact Int.mul_tdiv_cancel inc (by norm_num)
  · intro l₁ l₂ h0 h1
    simp [imcdf_calc_samp_per_from_tt2000, h0, h1]

/-- C7 witness at start 2000-01-01T00:00:00 (epoch 0), increment 60 s,
count 2. -/
theorem claim_C7_witness :
    (2 ≤ 2) ∧
    ∃ arr, imcdf_make_tt2000_array 2000 1 1 0 0 0 60 2 = some arr ∧
      arr.length = 2 ∧
      (∀ i : Nat, i < 2 → arr[i]? = some ((0 : Int) + i * (60 * 1000000000))) ∧
      imcdf_calc_samp_per_from_tt2000 arr = 60 ∧
      (∀ l₁ l₂ : List Int, l₁[0]? = l₂[0]? → l₁[1]? = l₂[1]? →
        imcdf_calc_samp_per_from_tt2000 l₁ = imcdf_calc_samp_per_from_tt2000 l₂) :=
  ⟨by omega, claim_C7_uniform_spacing 2000 1 1 0 0 0 60 2 0 (by omega) (by decide)⟩

/-- C4: `imcdf_make_filename` is a pure function assembling
`prefix + station + "_" + date fragment (precision set by coverage)
+ "_" + cadence tag + "_" + publication-level code + ".cdf"`, lowercasing
every character after the prefix when the flag is set; the cadence tags are
{annual→"p1y", monthly→"p1m", daily→"p1d", hourly→"pt1h", minute→"pt1m",
second→"pt1s", default→"unkn"}; coverage precision instances at epoch 0
(2000-01-01T00:00:00); and the claim's concrete case: 1980-01-01T00:00:00,
cadence minute, coverage daily, station "AFO", level 1, lowercase, empty
prefix gives "afo_19800101_pt1m_1.cdf". -/
theorem claim_C4_filename_synthesis :
    (∀ (pre station : String) (t : Int) (pl : IMCDFPubLevel)
        (cadence coverage : IMCDFInterval),
      ∃ rest : String,
        imcdf_make_filename pre station t pl cadence coverage false = pre ++ rest ∧
        imcdf_make_filename pre station t pl cadence coverage true =
          pre ++ lowerString rest ∧
        ∃ base, rest = station ++ "_" ++ base ++ "_" ++
          imcdf_pub_level_code_tostring pl ++ ".cdf") ∧
    (cadenceTag .annual = "p1y" ∧ cadenceTag .monthly = "p1m" ∧
     cadenceTag .daily = "p1d" ∧ cadenceTag .hourly = "pt1h" ∧
     cadenceTag .minute = "pt1m" ∧ cadenceTag .second = "pt1s" ∧
     cadenceTag .unknown = "unkn") ∧
    (imcdf_make_filename "" "WIC" 0 .l2 .second .annual false =
       "WIC_2000_pt1s_2.cdf" ∧
     imcdf_make_filename "" "WIC" 0 .l2 .second .monthly false =
       "WIC_200001_pt1s_2.cdf" ∧
     imcdf_make_filename "" "WIC" 0 .l2 .second .daily false =
       "WIC_20000101_pt1s_2.cdf" ∧
     imcdf_make_filename "" "WIC" 0 .l2 .second .hourly false =
       "WIC_20000101_00_pt1s_2.cdf" ∧
     imcdf_make_filename "" "WIC" 0 .l2 .second .minute false =
       "WIC_20000101_0000_pt1s_2.cdf" ∧
     imcdf_make_filename "" "WIC" 0 .l2 .second .second false =
       "WIC_20000101_000000_pt1s_2.cdf") ∧
    (imcdf_date_time_to_tt2000 1980 1 1 0 0 0).map
      (fun t => imcdf_make_filename "" "AFO" t .l1 .minute .daily true) =
      some "afo_19800101_pt1m_1.cdf" := by
  refine ⟨fun pre station t pl cadence coverage => ?_,
          ⟨rfl, rfl, rfl, rfl, rfl, rfl, rfl⟩,
          ⟨by decide, by decide, by decide, by decide, by decide, by decide⟩,
          by decide⟩
  rcases hdt : imcdf_tt2000_to_date_time t with ⟨y, mo, d, h, mi, s⟩
  refine ⟨station ++ "_" ++
      coverageFragment coverage y mo d h mi s (cadenceTag cadence) ++ "_" ++
      imcdf_pub_level_code_tostring pl ++ ".cdf", ?_, ?_, _, rfl⟩
  · simp only [imcdf_make_filename, hdt, if_neg]
    simp [string_append_assoc]
  · simp only [imcdf_make_filename, hdt, if_pos]
    have harg : pre ++ station ++ "_" ++
        coverageFragment coverage y mo d h mi s (cadenceTag cadence) ++ "_" ++
        imcdf_pub_level_code_tostring pl ++ ".cdf" =
        pre ++ (station ++ "_" ++
          coverageFragment coverage y mo d h mi s (cadenceTag cadence) ++ "_" ++
          imcdf_pub_level_code_tostring pl ++ ".cdf") := by
      simp [string_append_assoc]
    rw [harg, strLowerFrom_append]

/-- C1: once all required attributes are present (assembly succeeds), the read
returns success exactly when the Title and FormatDescription match their
canonical strings case-insensitively and the FormatVersion parses to a tenths
value in [11, 13]; any violation is one of the three validation errors, each
carrying `CDF_OK` (no container status) and a message distinct from the
container-error message; versions "1.0" and "1.4" give tenths 10 and 14
(rejected) while "1.1", "1.2", "1.3" give 11, 12, 13 (accepted). -/
theorem claim_C1_read_validation_gate
    (c : Container)
    (fd fv ti ic er pl onm inst sl src : String) (lat lon elev : Rat) (pd : Int)
    (hfd : c.strAttr "FormatDescription" 0 = some fd)
    (hfv : c.strAttr "FormatVersion" 0 = some fv)
    (hti : c.strAttr "Title" 0 = some ti)
    (hic : c.strAttr "IagaCode" 0 = some ic)
    (her : c.strAttr "ElementsRecorded" 0 = some er)
    (hpl : c.strAttr "PublicationLevel" 0 = some pl)
    (hpd : c.ttAttr "PublicationDate" 0 = some pd)
    (hon : c.strAttr "ObservatoryName" 0 = some onm)
    (hla : c.dblAttr "Latitude" 0 = some lat)
    (hlo : c.dblAttr "Longitude" 0 = some lon)
    (hel : c.dblAttr "Elevation" 0 = some elev)
    (hin : c.strAttr "Institution" 0 = some inst)
    (hsl : c.strAttr "StandardLevel" 0 = some sl)
    (hsr : c.strAttr "Source" 0 = some src) :
    ((imcdf_read_global_attrs c).isOk = true ↔
      (strcaseEq ti CANONICAL_TITLE = true ∧
       strcaseEq fd CANONICAL_FORMAT_DESCRIPTION = true ∧
       11 ≤ versionTenths fv ∧ versionTenths fv ≤ 13)) ∧
    (∀ e, imcdf_read_global_attrs c = .error e →
      (e.msg = "Title of data incorrect" ∨ e.msg = "Description of data incorrect" ∨
       e.msg = "Format incorrect") ∧ e.cdfStatus = CDF_OK ∧
      e.msg ≠ "Error reading global attribute") ∧
    (versionTenths "1.0" = 10 ∧ versionTenths "1.1" = 11 ∧ versionTenths "1.2" = 12 ∧
     versionTenths "1.3" = 13 ∧ versionTenths "1.4" = 14) := by
  refine ⟨?_, ?_, by decide, by decide, by decide, by decide, by decide⟩
  · simp only [imcdf_read_global_attrs, reqStr, reqDbl, reqTT, hfd, hfv, hti, hic,
      her, hpl, hpd, hon, hla, hlo, hel, hin, hsl, hsr, except_ok_bind]
    split_ifs with h1 h2 h3
    · simp [h1]
    · simp [h2]
    · simp only [Bool.not_eq_false] at h1 h2
      simp only [except_isOk_error, h1, h2, true_and]
      constructor
      · intro hh; exact absurd hh (by decide)
      · intro hh; omega
    · simp only [Bool.not_eq_false] at h1 h2
      simp only [except_isOk_ok, h1, h2, true_and]
      constructor
      · intro _; omega
      · intro _; rfl
  · simp only [imcdf_read_global_attrs, reqStr, reqDbl, reqTT, hfd, hfv, hti, hic,
      her, hpl, hpd, hon, hla, hlo, hel, hin, hsl, hsr, except_ok_bind]
    split_ifs with h1 h2 h3 <;> intro e he
    · cases he; exact ⟨Or.inl rfl, rfl, by simp⟩
    · cases he; exact ⟨Or.inr (Or.inl rfl), rfl, by simp⟩
    · cases he; exact ⟨Or.inr (Or.inr rfl), rfl, by simp⟩
    · cases he

/-- C1 witness: a concrete container with canonical title/description and
FormatVersion "1.2" reads successfully, through the validation gate. -/
theorem claim_C1_witness :
    (imcdf_read_global_attrs (sampleContainer "1.2" "1")).isOk = true :=
  ((claim_C1_read_validation_gate (sampleContainer "1.2" "1")
      _ _ _ _ _ _ _ _ _ _ _ _ _ _
      rfl rfl rfl rfl rfl rfl rfl rfl rfl rfl rfl rfl rfl rfl).1).mpr
    ⟨by decide, by decide, by decide, by decide⟩

/-- C6: with every required attribute present (and valid canonical values so
the validation gate passes), a not-found result on each of the six optional
attributes is absorbed — the read succeeds with those fields empty — whereas
a not-found on a required attribute (IagaCode, Source, Institution) makes the
whole read fail, whatever else the container holds. -/
theorem claim_C6_optional_absorbed_required_fatal
    (c : Container) (ic er pl onm inst sl src : String)
    (lat lon elev : Rat) (pd : Int)
    (hfd : c.strAttr "FormatDescription" 0 = some CANONICAL_FORMAT_DESCRIPTION)
    (hfv : c.strAttr "FormatVersion" 0 = some "1.2")
    (hti : c.strAttr "Title" 0 = some CANONICAL_TITLE)
    (hic : c.strAttr "IagaCode" 0 = some ic)
    (her : c.strAttr "ElementsRecorded" 0 = some er)
    (hpl : c.strAttr "PublicationLevel" 0 = some pl)
    (hpd : c.ttAttr "PublicationDate" 0 = some pd)
    (hon : c.strAttr "ObservatoryName" 0 = some onm)
    (hla : c.dblAttr "Latitude" 0 = some lat)
    (hlo : c.dblAttr "Longitude" 0 = some lon)
    (hel : c.dblAttr "Elevation" 0 = some elev)
    (hin : c.strAttr "Institution" 0 = some inst)
    (hsl : c.strAttr "StandardLevel" 0 = some sl)
    (hsr : c.strAttr "Source" 0 = some src)
    (hvso : c.strAttr "VectorSensOrient" 0 = none)
    (hsn : c.strAttr "StandardName" 0 = none)
    (hsv : c.strAttr "StandardVersion" 0 = none)
    (hpsd : c.strAttr "PartialStandDesc" 0 = none)
    (htou : c.strAttr "TermsOfUse" 0 = none)
    (huid : c.strAttr "UniqueIdentifier" 0 = none) :
    (∃ a, imcdf_read_global_attrs c = .ok a ∧
      a.vector_sens_orient = none ∧ a.standard_name = none ∧
      a.standard_version = none ∧ a.partial_stand_desc = none ∧
      a.terms_of_use = none ∧ a.unique_identifier = none) ∧
    (∀ c' : Container, c'.strAttr "IagaCode" 0 = none →
      (imcdf_read_global_attrs c').isOk = false) ∧
    (∀ c' : Container, c'.strAttr "Institution" 0 = none →
      (imcdf_read_global_attrs c').isOk = false) ∧
    (∀ c' : Container, c'.strAttr "Source" 0 = none →
      (imcdf_read_global_attrs c').isOk = false) := by
  refine ⟨?_, fun c' h => ?_, fun c' h => ?_, fun c' h => ?_⟩
  · simp only [imcdf_read_global_attrs, reqStr, reqDbl, reqTT, hfd, hfv, hti, hic,
      her, hpl, hpd, hon, hla, hlo, hel, hin, hsl, hsr, hvso, hsn, hsv, hpsd,
      htou, huid, except_ok_bind]
    rw [if_neg (by decide), if_neg (by decide), if_neg (by decide)]
    exact ⟨_, rfl, rfl, rfl, rfl, rfl, rfl, rfl⟩
  · by_contra hok
    rw [Bool.not_eq_false] at hok
    simp only [imcdf_read_global_attrs, except_isOk_bind_iff] at hok
    obtain ⟨a1, -, a2, -, a3, -, a4, h4, -⟩ := hok
    simp [reqStr, h] at h4
  · by_contra hok
    rw [Bool.not_eq_false] at hok
    simp only [imcdf_read_global_attrs, except_isOk_bind_iff] at hok
    obtain ⟨a1, -, a2, -, a3, -, a4, -, a5, -, a6, -, a7, -, a8, -, a9, -,
      a10, -, a11, -, a12, h12, -⟩ := hok
    simp [reqStr, h] at h12
  · by_contra hok
    rw [Bool.not_eq_false] at hok
    simp only [imcdf_read_global_attrs, except_isOk_bind_iff] at hok
    obtain ⟨a1, -, a2, -, a3, -, a4, -, a5, -, a6, -, a7, -, a8, -, a9, -,
      a10, -, a11, -, a12, -, a13, -, a14, h14, -⟩ := hok
    simp [reqStr, h] at h14

/-- C6 witness: the sample container (optionals absent) reads successfully
with empty optional fields, and the empty container (required attributes
absent) fails to read. -/
theorem claim_C6_witness :
    (∃ a, imcdf_read_global_attrs (sampleContainer "1.2" "1") = .ok a ∧
      a.vector_sens_orient = none ∧ a.standard_name = none ∧
      a.standard_version = none ∧ a.partial_stand_desc = none ∧
      a.terms_of_use = none ∧ a.unique_identifier = none) ∧
    (imcdf_read_global_attrs emptyContainer).isOk = false :=
  ⟨(claim_C6_optional_absorbed_required_fatal (sampleContainer "1.2" "1")
      _ _ _ _ _ _ _ _ _ _ _
      rfl rfl rfl rfl rfl rfl rfl rfl rfl rfl rfl rfl rfl rfl
      rfl rfl rfl rfl rfl rfl).1,
   (claim_C6_optional_absorbed_required_fatal (sampleContainer "1.2" "1")
      _ _ _ _ _ _ _ _ _ _ _
      rfl rfl rfl rfl rfl rfl rfl rfl rfl rfl rfl rfl rfl rfl
      rfl rfl rfl rfl rfl rfl).2.1 emptyContainer rfl⟩

/-- C9 (counterexample): with a stored PublicationLevel string "9" — not one
of the recognised encodings — the read path does NOT report any violation:
it succeeds, silently substituting the default publication level 1.  This
refutes the claim that such violations are reported. -/
theorem claim_C9_counterexample :
    (imcdf_read_global_attrs (sampleContainer "1.2" "9")).isOk = true ∧
    (imcdf_read_global_attrs (sampleContainer "1.2" "9")).toOption.map
      (fun a => a.pub_level) = some IMCDFPubLevel.l1 := by
  exact ⟨by decide, by decide⟩

/-- `strcasecmp` equality is equality of the lowercased strings. -/
theorem strcaseEq_iff (a b : String) :
    strcaseEq a b = true ↔ lowerString a = lowerString b := by
  cases a
  cases b
  simp [strcaseEq, lowerString, String.ext_iff]

/-- C9 (amended): an unrecognised PublicationLevel string is parsed as the
default level 1 and an unrecognised StandardLevel string as None — the read
path stores these defaults and succeeds without reporting any violation. -/
theorem claim_C9_amended_silent_default :
    (∀ s : String, lowerString s ∉ (["1", "2", "3", "4"] : List String) →
      imcdf_parse_pub_level_string s = .l1) ∧
    (∀ s : String, lowerString s ∉ (["full", "partial", "none"] : List String) →
      imcdf_parse_standard_level_string s = .levelNone) ∧
    (imcdf_read_global_attrs (sampleContainer "1.2" "9")).isOk = true ∧
    (imcdf_read_global_attrs (sampleContainer "1.2" "9")).toOption.map
      (fun a => a.pub_level) = some IMCDFPubLevel.l1 := by
  refine ⟨fun s hs => ?_, fun s hs => ?_, by decide, by decide⟩
  · simp only [List.mem_cons, List.mem_singleton, not_or] at hs
    obtain ⟨n1, n2, n3, n4, -⟩ := hs
    have e1 : strcaseEq s "1" = false :=
      Bool.eq_false_iff.mpr fun hx => n1 ((strcaseEq_iff s "1").mp hx)
    have e2 : strcaseEq s "2" = false :=
      Bool.eq_false_iff.mpr fun hx => n2 ((strcaseEq_iff s "2").mp hx)
    have e3 : strcaseEq s "3" = false :=
      Bool.eq_false_iff.mpr fun hx => n3 ((strcaseEq_iff s "3").mp hx)
    have e4 : strcaseEq s "4" = false :=
      Bool.eq_false_iff.mpr fun hx => n4 ((strcaseEq_iff s "4").mp hx)
    simp [imcdf_parse_pub_level_string, e1, e2, e3, e4]
  · simp only [List.mem_cons, List.mem_singleton, not_or] at hs
    obtain ⟨n1, n2, n3, -⟩ := hs
    have e1 : strcaseEq s "full" = false :=
      Bool.eq_false_iff.mpr fun hx => n1 ((strcaseEq_iff s "full").mp hx)
    have e2 : strcaseEq s "partial" = false :=
      Bool.eq_false_iff.mpr fun hx => n2 ((strcaseEq_iff s "partial").mp hx)
    have e3 : strcaseEq s "none" = false :=
      Bool.eq_false_iff.mpr fun hx => n3 ((strcaseEq_iff s "none").mp hx)
    simp [imcdf_parse_standard_level_string, e1, e2, e3]

/-- C9 amended-claim witness at the concrete unrecognised strings "9" and
"Draft". -/
theorem claim_C9_amended_witness :
    (lowerString "9" ∉ (["1", "2", "3", "4"] : List String)) ∧
    imcdf_parse_pub_level_string "9" = .l1 ∧
    (lowerString "Draft" ∉ (["full", "partial", "none"] : List String)) ∧
    imcdf_parse_standard_level_string "Draft" = .levelNone :=
  ⟨by decide,
   claim_C9_amended_silent_default.1 "9" (by decide),
   by decide,
   claim_C9_amended_silent_default.2.1 "Draft" (by decide)⟩

end Imcdf
